import Mathlib

/-!
Shallow embedding of `feature.js` (browser feature-detection library,
`src/feature.js`) and verification of its specification.

The embedding models:
* `util.pfx` — the vendor-prefix resolver, including its candidate-string
  construction (`(prop + " " + prefixes.join(ucProp + " ") + ucProp).split(" ")`),
  its memo table (a plain JavaScript object literal `{}`, which inherits the
  `Object.prototype` members), and its scan loop;
* `util.old` — the old-device denylist flag, the regular expression
  `/(Android\s(1.|2.))|(Silk\/1.)/i` applied to `navigator.userAgent` once at
  module initialization;
* the `Feature` catalog of probes, each a function of an explicit environment
  record describing the ambient host objects the probe inspects, with
  `try`/`catch` rendered as `Except`;
* `Feature.testAll`, the aggregator, including the truthiness test
  `this[test]` and the call `test()` that its loop body performs.
-/

namespace FeatureJS

/-! ## JavaScript string helpers -/

/-- Splits a character list at every `' '`, keeping empty segments: the
behaviour of JavaScript `String.prototype.split(" ")`. -/
def splitSpaces : List Char → List (List Char)
  | [] => [[]]
  | c :: rest =>
    if c = ' ' then [] :: splitSpaces rest
    else
      match splitSpaces rest with
      | [] => [[c]]
      | g :: gs => (c :: g) :: gs

/-- JavaScript `s.split(" ")` on a Lean `String`. -/
def jsSplitSpace (s : String) : List String :=
  (splitSpaces s.data).map (fun cs => ⟨cs⟩)

/-- JavaScript `s.toLowerCase()` (per-character lowering). -/
def jsToLower (s : String) : String := ⟨s.data.map Char.toLower⟩

/-! ## The prefix resolver `util.pfx`

```js
pfx : (function() {
  var style = document.createElement("dummy").style;
  var prefixes = ["Webkit", "Moz", "O", "ms"];
  var memory = {};
  return function(prop) {
    if (typeof memory[prop] === "undefined") {
      var ucProp = prop.charAt(0).toUpperCase() + prop.substr(1),
        props = (prop + " " + prefixes.join(ucProp + " ") + ucProp).split(" ");
        memory[prop] = null;
      for (var i in props) {
        if (style[props[i]] !== undefined) {
          memory[prop] = props[i];
          break;
        }
      }
    }
    return memory[prop];
  };
})()
```

The `style` object captured at initialization is modelled by the list of
property names `p` for which `style[p] !== undefined`. -/

/-- `style[p] !== undefined` for the `style` object captured at module
initialization, given the list of names defined on it. -/
def styleDefined (style : List String) (p : String) : Bool := style.contains p

/-- A value readable from the memo object: `null`, a candidate property-name
string, or a function inherited from `Object.prototype` (e.g.
`memory["constructor"]`). -/
inductive MemVal
  | null
  | str (s : String)
  | protoFn (s : String)
  deriving DecidableEq

/-- JavaScript `v !== null` for a value read out of the memo object (strings
and functions are not `null`). -/
def MemVal.isNotNull : MemVal → Bool
  | .null => false
  | _ => true

/-- The own (assigned) entries of the memo object `memory = {}`.  Assignment
is modelled by consing, with lookup taking the first (most recent) match. -/
structure Memory where
  own : List (String × MemVal)
  deriving DecidableEq

def lookupOwn : List (String × MemVal) → String → Option MemVal
  | [], _ => none
  | e :: rest, p => if e.1 = p then some e.2 else lookupOwn rest p

/-- The plain members every object literal `{}` inherits from
`Object.prototype`; for each of these keys `k`, `typeof memory[k]` is
`"function"`, never `"undefined"`.  (The exotic accessor `__proto__` is not
modelled.) -/
def objectProtoKeys : List String :=
  ["constructor", "hasOwnProperty", "isPrototypeOf", "propertyIsEnumerable",
   "toLocaleString", "toString", "valueOf",
   "__defineGetter__", "__defineSetter__", "__lookupGetter__", "__lookupSetter__"]

/-- Property read `memory[p]`: an own entry if one was assigned, otherwise an
inherited `Object.prototype` member, otherwise `undefined` (`none`).
`typeof memory[p] === "undefined"` holds exactly when this is `none`. -/
def Memory.lookup (m : Memory) (p : String) : Option MemVal :=
  match lookupOwn m.own p with
  | some v => some v
  | none => if objectProtoKeys.contains p then some (MemVal.protoFn p) else none

/-- Property write `memory[p] = v`. -/
def Memory.insert (m : Memory) (p : String) (v : MemVal) : Memory :=
  ⟨(p, v) :: m.own⟩

/-- `var prefixes = ["Webkit", "Moz", "O", "ms"];` -/
def prefixes : List String := ["Webkit", "Moz", "O", "ms"]

/-- `prop.charAt(0).toUpperCase() + prop.substr(1)`. -/
def capitalize (prop : String) : String :=
  match prop.data with
  | [] => ""
  | c :: rest => ⟨c.toUpper :: rest⟩

/-- The string `prop + " " + prefixes.join(ucProp + " ") + ucProp` built by
the source before splitting. -/
def propsStr (prop : String) : String :=
  prop ++ " " ++ String.intercalate (capitalize prop ++ " ") prefixes ++ capitalize prop

/-- `props`, the candidate list the resolver scans:
`(prop + " " + prefixes.join(ucProp + " ") + ucProp).split(" ")`. -/
def pfxCandidates (prop : String) : List String := jsSplitSpace (propsStr prop)

/-- The scan loop `for (var i in props) { if (style[props[i]] !== undefined) ... }`,
returning the value left in `memory[prop]` together with the number of
property-existence checks (`style[...] !== undefined`) performed. -/
def scanProps (style : List String) : List String → Nat → MemVal × Nat
  | [], n => (MemVal.null, n)
  | c :: rest, n =>
    if styleDefined style c then (MemVal.str c, n + 1)
    else scanProps style rest (n + 1)

/-- One call of `util.pfx(prop)`: returns the value the call yields, the memo
object afterwards, and the number of property-existence checks against the
`style` object performed during the call.  On a memo miss the source first
assigns `memory[prop] = null` and then overwrites it with the first matching
candidate, so the net new own entry is the scan result. -/
def pfx (style : List String) (m : Memory) (prop : String) : MemVal × Memory × Nat :=
  match m.lookup prop with
  | some v => (v, m, 0)
  | none =>
    let res := scanProps style (pfxCandidates prop) 0
    (res.1, m.insert prop res.1, res.2)

/-! ## `util.old` — the old-device denylist flag

```js
old : !!(/(Android\s(1.|2.))|(Silk\/1.)/i.test(navigator.userAgent)),
```

computed once, at module initialization, from `navigator.userAgent`.  The
regular expression is embedded as a substring matcher over the lowercased
user-agent string: the `i` flag is rendered by lowercasing both the input and
the literal parts of the pattern. -/

/-- The characters matched by `\s` in a JavaScript regular expression
(the common ones: space, tab, line feed, vertical tab, form feed, carriage
return, no-break space). -/
def jsWhitespace (c : Char) : Bool :=
  c = ' ' || c = '\t' || c = '\n' || c = '\r' || c.val = 11 || c.val = 12 || c.val = 160

/-- `.` in a JavaScript regular expression (without the `s` flag) matches any
character except the line terminators. -/
def notLineTerm (c : Char) : Bool :=
  !(c = '\n' || c = '\r' || c.val = 0x2028 || c.val = 0x2029)

/-- `(Android\s(1.|2.))` matches at the head of the (lowercased) list. -/
def matchOldAndroid : List Char → Bool
  | 'a' :: 'n' :: 'd' :: 'r' :: 'o' :: 'i' :: 'd' :: w :: d :: c :: _ =>
    jsWhitespace w && (d = '1' || d = '2') && notLineTerm c
  | _ => false

/-- `(Silk\/1.)` matches at the head of the (lowercased) list. -/
def matchOldSilk : List Char → Bool
  | 's' :: 'i' :: 'l' :: 'k' :: '/' :: '1' :: c :: _ => notLineTerm c
  | _ => false

def uaOldAux : List Char → Bool
  | [] => false
  | c :: rest => matchOldAndroid (c :: rest) || matchOldSilk (c :: rest) || uaOldAux rest

/-- `!!(/(Android\s(1.|2.))|(Silk\/1.)/i.test(ua))`. -/
def uaOld (ua : String) : Bool := uaOldAux (ua.data.map Char.toLower)

/-! ## The host environment

Each field records the truthiness (or the `in`-test result) of the exact host
expression the corresponding probe inspects, or — for the operations the
source wraps in `try`/`catch` — the operation itself as an `Except`, where
`Except.error ()` models a thrown exception. -/

/-- The `localStorage` host object: whether it exposes `setItem` / `removeItem`. -/
structure LocalStorageObj where
  hasSetItem : Bool
  hasRemoveItem : Bool

structure Env where
  /-- names defined on the `style` object captured by `util.pfx` at init -/
  styleProps : List String
  /-- `navigator.userAgent` as currently exposed by the host -/
  userAgent : String
  /-- truthiness of `window.addEventListener` -/
  hasAddEventListener : Bool
  /-- truthiness of `document.querySelectorAll` -/
  hasQuerySelectorAll : Bool
  /-- truthiness of `window.matchMedia` -/
  hasMatchMedia : Bool
  /-- `"DeviceMotionEvent" in window` -/
  hasDeviceMotionEvent : Bool
  /-- `"DeviceOrientationEvent" in window` -/
  hasDeviceOrientationEvent : Bool
  /-- `"contextMenu" in docEl` -/
  contextMenuInDocEl : Bool
  /-- `"HTMLMenuItemElement" in window` -/
  hasHTMLMenuItemElement : Bool
  /-- `"classList" in docEl` -/
  classListInDocEl : Bool
  /-- `"placeholder" in util.create("input")` -/
  inputHasPlaceholder : Bool
  /-- reading the global `localStorage` handle; throws when storage is
  disabled by policy -/
  localStorageObj : Except Unit LocalStorageObj
  /-- truthiness of `window.history` -/
  historyTruthy : Bool
  /-- `"pushState" in window.history` -/
  historyHasPushState : Bool
  /-- `"serviceWorker" in navigator` -/
  hasServiceWorker : Bool
  /-- `el.style.width = u` on a fresh element followed by reading
  `el.style.width` back; may throw -/
  setWidth : String → Except Unit String
  /-- truthiness of `el.getContext` on a fresh element -/
  hasGetContext : Bool
  /-- truthiness of `el.getContext("2d")` -/
  has2DContext : Bool
  /-- truthiness of `document.createElementNS` -/
  hasCreateElementNS : Bool
  /-- truthiness of `.createSVGRect` on the created svg element -/
  svgHasCreateSVGRect : Bool
  /-- truthiness of `window.WebGLRenderingContext` -/
  hasWebGLRenderingContext : Bool
  /-- truthiness of `el.getContext(t)` for `"webgl"` / `"experimental-webgl"`;
  may throw -/
  getContext3D : String → Except Unit Bool
  /-- `"XMLHttpRequest" in window` -/
  hasXMLHttpRequest : Bool
  /-- `"withCredentials" in new XMLHttpRequest()` -/
  xhrHasWithCredentials : Bool
  /-- `"ontouchstart" in window` -/
  hasOnTouchStart : Bool
  /-- truthiness of `window.navigator` -/
  navigatorTruthy : Bool
  /-- truthiness of `window.navigator.msPointerEnabled` -/
  msPointerEnabled : Bool
  /-- truthiness of `window.MSGesture` -/
  hasMSGesture : Bool
  /-- truthiness of `window.DocumentTouch` -/
  hasDocumentTouch : Bool
  /-- `document instanceof DocumentTouch` -/
  documentInstanceOfDocumentTouch : Bool
  /-- `"async" in util.create("script")` -/
  scriptHasAsync : Bool
  /-- `"defer" in util.create("script")` -/
  scriptHasDefer : Bool
  /-- `"geolocation" in navigator` -/
  hasGeolocation : Bool
  /-- `"srcset" in util.create("img")` -/
  imgHasSrcset : Bool
  /-- `"sizes" in util.create("img")` -/
  imgHasSizes : Bool
  /-- `"HTMLPictureElement" in window` -/
  hasHTMLPictureElement : Bool

/-- The module-level state frozen or accumulated by `util`: the `old` flag
(computed once, at module initialization, from `navigator.userAgent`) and the
resolver's memo object. -/
structure FeatureState where
  old : Bool
  memory : Memory

/-- Module initialization:
`old : !!(/(Android\s(1.|2.))|(Silk\/1.)/i.test(navigator.userAgent))` and
`var memory = {};`. -/
def moduleInit (ua : String) : FeatureState :=
  { old := uaOld ua, memory := ⟨[]⟩ }

/-! ## The Feature catalog -/

/-- `css3Dtransform`:
`var test = (!util.old && util.pfx("perspective") !== null); return !!test;`
(`&&` short-circuits: `pfx` is not consulted when `util.old` is truthy). -/
def css3Dtransform (s : FeatureState) (env : Env) : Bool × FeatureState :=
  if s.old then (false, s)
  else
    let res := pfx env.styleProps s.memory "perspective"
    (res.1.isNotNull, { s with memory := res.2.1 })

/-- `cssTransform`:
`var test = (!util.old && util.pfx("transformOrigin") !== null); return !!test;` -/
def cssTransform (s : FeatureState) (env : Env) : Bool × FeatureState :=
  if s.old then (false, s)
  else
    let res := pfx env.styleProps s.memory "transformOrigin"
    (res.1.isNotNull, { s with memory := res.2.1 })

/-- `cssTransition`: `var test = util.pfx("transition") !== null; return !!test;` -/
def cssTransition (s : FeatureState) (env : Env) : Bool × FeatureState :=
  let res := pfx env.styleProps s.memory "transition"
  (res.1.isNotNull, { s with memory := res.2.1 })

/-- `addEventListener`: `return !!window.addEventListener;` -/
def addEventListener (env : Env) : Bool := env.hasAddEventListener

/-- `querySelectorAll`: `return document.querySelectorAll;` (truthiness of
the returned boolean-coercible value). -/
def querySelectorAll (env : Env) : Bool := env.hasQuerySelectorAll

/-- `matchMedia`: `return window.matchMedia;` (truthiness). -/
def matchMedia (env : Env) : Bool := env.hasMatchMedia

/-- `deviceMotion`: `return ("DeviceMotionEvent" in window);` -/
def deviceMotion (env : Env) : Bool := env.hasDeviceMotionEvent

/-- `deviceOrientation`: `return ("DeviceOrientationEvent" in window);` -/
def deviceOrientation (env : Env) : Bool := env.hasDeviceOrientationEvent

/-- `contextMenu`: `return ("contextMenu" in docEl && "HTMLMenuItemElement" in window);` -/
def contextMenu (env : Env) : Bool :=
  env.contextMenuInDocEl && env.hasHTMLMenuItemElement

/-- `classList`: `return ("classList" in docEl);` -/
def classList (env : Env) : Bool := env.classListInDocEl

/-- `placeholder`: `return ("placeholder" in util.create("input"));` -/
def placeholder (env : Env) : Bool := env.inputHasPlaceholder

/-- `localStorage`:
```js
try {
  return ('setItem' in localStorage && 'removeItem' in localStorage);
} catch(err) {
  return false;
}
``` -/
def localStorage (env : Env) : Bool :=
  match env.localStorageObj with
  | Except.ok ls => ls.hasSetItem && ls.hasRemoveItem
  | Except.error _ => false

/-- `historyAPI`: `return (window.history && "pushState" in window.history);` -/
def historyAPI (env : Env) : Bool := env.historyTruthy && env.historyHasPushState

/-- `serviceWorker`: `return ("serviceWorker" in navigator);` -/
def serviceWorker (env : Env) : Bool := env.hasServiceWorker

/-- `viewportUnit`:
```js
var el = util.create('dummy');
try {
  el.style.width = "1vw";
  var test = el.style.width !== "";
  return !!test;
} catch(err) {
  return false;
}
``` -/
def viewportUnit (env : Env) : Bool :=
  match env.setWidth "1vw" with
  | Except.ok w => w != ""
  | Except.error _ => false

/-- `remUnit`: as `viewportUnit` with `"1rem"`. -/
def remUnit (env : Env) : Bool :=
  match env.setWidth "1rem" with
  | Except.ok w => w != ""
  | Except.error _ => false

/-- `canvas`: `return !!(el.getContext && el.getContext("2d"));` -/
def canvas (env : Env) : Bool := env.hasGetContext && env.has2DContext

/-- `svg`: `return !!document.createElementNS && !!document.createElementNS(ns, "svg").createSVGRect;` -/
def svg (env : Env) : Bool := env.hasCreateElementNS && env.svgHasCreateSVGRect

/-- `webGL`:
```js
var el = util.create('dummy');
try {
  return !!(window.WebGLRenderingContext &&
    (el.getContext("webgl") || el.getContext("experimental-webgl")));
} catch(err) {
  return false;
}
```
When `window.WebGLRenderingContext` is falsy, `&&` short-circuits and no
context acquisition is attempted; a throw from either `getContext` call is
caught and yields `false`. -/
def webGL (env : Env) : Bool :=
  if env.hasWebGLRenderingContext then
    match env.getContext3D "webgl" with
    | Except.ok true => true
    | Except.ok false =>
      match env.getContext3D "experimental-webgl" with
      | Except.ok b => b
      | Except.error _ => false
    | Except.error _ => false
  else false

/-- `cors`: `return ("XMLHttpRequest" in window && "withCredentials" in new XMLHttpRequest());` -/
def cors (env : Env) : Bool := env.hasXMLHttpRequest && env.xhrHasWithCredentials

/-- `touch`:
`return !!(("ontouchstart" in window) || window.navigator && window.navigator.msPointerEnabled && window.MSGesture || window.DocumentTouch && document instanceof DocumentTouch);` -/
def touch (env : Env) : Bool :=
  env.hasOnTouchStart ||
    (env.navigatorTruthy && env.msPointerEnabled && env.hasMSGesture) ||
    (env.hasDocumentTouch && env.documentInstanceOfDocumentTouch)

/-- `async`: `return ("async" in util.create("script"));` -/
def async (env : Env) : Bool := env.scriptHasAsync

/-- `defer`: `return ("defer" in util.create("script"));` -/
def defer (env : Env) : Bool := env.scriptHasDefer

/-- `geolocation`: `return ("geolocation" in navigator);` -/
def geolocation (env : Env) : Bool := env.hasGeolocation

/-- `srcset`: `return ("srcset" in util.create("img"));` -/
def srcset (env : Env) : Bool := env.imgHasSrcset

/-- `sizes`: `return ("sizes" in util.create("img"));` -/
def sizes (env : Env) : Bool := env.imgHasSizes

/-- `pictureElement`: `return ("HTMLPictureElement" in window);` -/
def pictureElement (env : Env) : Bool := env.hasHTMLPictureElement

/-- A probe as invoked by a caller: it may read and update the module state
(only the three `util.pfx` users do) and reads the live environment. -/
def Probe : Type := FeatureState → Env → Bool × FeatureState

/-- Wraps a probe that does not touch the module state. -/
def pureProbe (f : Env → Bool) : Probe := fun s env => (f env, s)

/-- The enumerable members of the `Feature` object literal that are probes,
in declaration (insertion) order. -/
def catalog : List (String × Probe) :=
  [("css3Dtransform", css3Dtransform),
   ("cssTransform", cssTransform),
   ("cssTransition", cssTransition),
   ("addEventListener", pureProbe addEventListener),
   ("querySelectorAll", pureProbe querySelectorAll),
   ("matchMedia", pureProbe matchMedia),
   ("deviceMotion", pureProbe deviceMotion),
   ("deviceOrientation", pureProbe deviceOrientation),
   ("contextMenu", pureProbe contextMenu),
   ("classList", pureProbe classList),
   ("placeholder", pureProbe placeholder),
   ("localStorage", pureProbe localStorage),
   ("historyAPI", pureProbe historyAPI),
   ("serviceWorker", pureProbe serviceWorker),
   ("viewportUnit", pureProbe viewportUnit),
   ("remUnit", pureProbe remUnit),
   ("canvas", pureProbe canvas),
   ("svg", pureProbe svg),
   ("webGL", pureProbe webGL),
   ("cors", pureProbe cors),
   ("touch", pureProbe touch),
   ("async", pureProbe async),
   ("defer", pureProbe defer),
   ("geolocation", pureProbe geolocation),
   ("srcset", pureProbe srcset),
   ("sizes", pureProbe sizes),
   ("pictureElement", pureProbe pictureElement)]

/-! ## The aggregator `Feature.testAll`

```js
testAll : function() {
  var classes = " js";
  for (var test in this) {
    if (test !== "testAll" && test !== "constructor" && this[test]) {
      classes += " " + test();
    }
  }
  docEl.className += classes.toLowerCase();
}
```

`for (var test in this)` enumerates the own keys of the `Feature` object
literal in insertion order: the 27 probe names, then `"testAll"`.  The loop
variable `test` is the key, a string.  The guard reads the member `this[test]`
— every member of `Feature` is a function value, hence truthy — and the body
then invokes `test()`: a call of the string held in `test`. -/

/-- An exception escaping to JavaScript callers. -/
inductive JSError
  | typeError
  deriving DecidableEq

/-- The own enumerable keys of the `Feature` object literal, in insertion
order. -/
def featureKeys : List String := catalog.map Prod.fst ++ ["testAll"]

/-- Truthiness of `this[test]` for a key of the `Feature` object: every
member is a function value, and functions are truthy. -/
def featureMemberTruthy (k : String) : Bool := featureKeys.contains k

/-- Invoking a string value, as `test()` does with the loop key: in
JavaScript a string is not callable, so the call raises a `TypeError`. -/
def callString (_k : String) : Except JSError String :=
  Except.error JSError.typeError

/-- The `for (var test in this)` loop of `testAll`, accumulating `classes`. -/
def testAllLoop : List String → String → Except JSError String
  | [], classes => Except.ok classes
  | k :: rest, classes =>
    if k != "testAll" && k != "constructor" && featureMemberTruthy k then
      match callString k with
      | Except.error e => Except.error e
      | Except.ok v => testAllLoop rest (classes ++ " " ++ v)
    else testAllLoop rest classes

/-- `Feature.testAll()`, acting on the current `docEl.className`: on normal
completion the new `className` is returned; a raised exception is the
`Except.error` case, in which the trailing `docEl.className +=` statement is
never reached. -/
def testAll (className : String) : Except JSError String :=
  match testAllLoop featureKeys " js" with
  | Except.error e => Except.error e
  | Except.ok classes => Except.ok (className ++ jsToLower classes)

/-- The `className` of the root element after a `testAll()` call: unchanged
when the call raises (the mutation statement is never reached). -/
def runTestAll (className : String) : String :=
  match testAll className with
  | Except.ok c => c
  | Except.error _ => className

/-- The number of `"js"` tokens among the space-separated tokens of a class
attribute value. -/
def jsTokenCount (s : String) : Nat :=
  ((jsSplitSpace s).filter (fun t => t == "js")).length

/-! ## Concrete environments used to instantiate the theorems -/

/-- A concrete host environment. -/
def baseEnv : Env :=
  { styleProps := ["perspective", "transformOrigin", "transition"]
    userAgent := "Mozilla/5.0 (X11; Linux x86_64) Gecko/20100101 Firefox/44.0"
    hasAddEventListener := true
    hasQuerySelectorAll := true
    hasMatchMedia := true
    hasDeviceMotionEvent := false
    hasDeviceOrientationEvent := false
    contextMenuInDocEl := false
    hasHTMLMenuItemElement := false
    classListInDocEl := true
    inputHasPlaceholder := true
    localStorageObj := Except.ok { hasSetItem := true, hasRemoveItem := true }
    historyTruthy := true
    historyHasPushState := true
    hasServiceWorker := false
    setWidth := fun u => Except.ok u
    hasGetContext := true
    has2DContext := true
    hasCreateElementNS := true
    svgHasCreateSVGRect := true
    hasWebGLRenderingContext := true
    getContext3D := fun _ => Except.ok true
    hasXMLHttpRequest := true
    xhrHasWithCredentials := true
    hasOnTouchStart := false
    navigatorTruthy := true
    msPointerEnabled := false
    hasMSGesture := false
    hasDocumentTouch := false
    documentInstanceOfDocumentTouch := false
    scriptHasAsync := true
    scriptHasDefer := true
    hasGeolocation := true
    imgHasSrcset := true
    imgHasSizes := true
    hasHTMLPictureElement := false }

/-- An environment in which storage access, width assignment and WebGL
context acquisition all throw. -/
def throwingEnv : Env :=
  { baseEnv with
    localStorageObj := Except.error ()
    setWidth := fun _ => Except.error ()
    getContext3D := fun _ => Except.error () }

/-- An environment without a `window.WebGLRenderingContext` constructor. -/
def noWebGLEnv : Env :=
  { baseEnv with hasWebGLRenderingContext := false }

/-- An old-Android environment whose style object does recognize
`perspective`, `transformOrigin` and `transition` unprefixed. -/
def oldAndroidEnv : Env :=
  { baseEnv with
    userAgent := "Mozilla/5.0 (Linux; U; Android 2.3.3; en-us) AppleWebKit/533.1" }

/-! ## Basic lemmas -/

theorem mk_data (s : String) : String.mk s.data = s := rfl

theorem strData_append (a b : String) : (a ++ b).data = a.data ++ b.data := rfl

theorem strAppend_assoc (a b c : String) : a ++ b ++ c = a ++ (b ++ c) := by
  cases a; cases b; cases c
  exact congrArg String.mk (List.append_assoc _ _ _)

theorem splitSpaces_nospace (cs : List Char) (h : ' ' ∉ cs) :
    splitSpaces cs = [cs] := by
  induction cs with
  | nil => rfl
  | cons c rest ih =>
    have hc : ¬ c = ' ' := by rintro rfl; exact h (List.mem_cons_self _ _)
    have hr : ' ' ∉ rest := fun hm => h (List.mem_cons_of_mem _ hm)
    simp [splitSpaces, hc, ih hr]

theorem splitSpaces_sep (xs ys : List Char) (h : ' ' ∉ xs) :
    splitSpaces (xs ++ ' ' :: ys) = xs :: splitSpaces ys := by
  induction xs with
  | nil => simp [splitSpaces]
  | cons c rest ih =>
    have hc : ¬ c = ' ' := by rintro rfl; exact h (List.mem_cons_self _ _)
    have hr : ' ' ∉ rest := fun hm => h (List.mem_cons_of_mem _ hm)
    simp only [List.cons_append, splitSpaces, hc, if_false, List.append_eq, ih hr]

theorem jsSplitSpace_sep (a b : String) (ha : ' ' ∉ a.data) :
    jsSplitSpace (a ++ " " ++ b) = a :: jsSplitSpace b := by
  unfold jsSplitSpace
  have hdata : (a ++ " " ++ b).data = a.data ++ ' ' :: b.data := by
    rw [strData_append, strData_append]
    simp
  rw [hdata, splitSpaces_sep _ _ ha]
  simp

theorem jsSplitSpace_nospace (a : String) (ha : ' ' ∉ a.data) :
    jsSplitSpace a = [a] := by
  unfold jsSplitSpace
  rw [splitSpaces_nospace _ ha]
  simp

/-! ## Lemmas about the resolver -/

/-- A second call with the same property name returns the same value, leaves
the memo unchanged, and performs zero property-existence checks. -/
theorem pfx_stable (style : List String) (m : Memory) (p : String) :
    pfx style ((pfx style m p).2.1) p = ((pfx style m p).1, (pfx style m p).2.1, 0) := by
  cases h : m.lookup p with
  | some v => simp only [pfx, h]
  | none =>
    have h2 : Memory.lookup (Memory.insert m p (scanProps style (pfxCandidates p) 0).1) p
        = some ((scanProps style (pfxCandidates p) 0).1) := by
      simp [Memory.lookup, Memory.insert, lookupOwn]
    simp only [pfx, h, h2]

/-- The scan loop yields the first candidate the style object recognizes,
and `null` when none is recognized. -/
theorem scanProps_fst (style : List String) (cs : List String) (n : Nat) :
    (scanProps style cs n).1 =
      (match cs.find? (fun c => styleDefined style c) with
        | some c => MemVal.str c
        | none => MemVal.null) := by
  induction cs generalizing n with
  | nil => rfl
  | cons c rest ih =>
    cases h : styleDefined style c with
    | true => simp [scanProps, h, List.find?]
    | false => simp [scanProps, h, List.find?, ih]

theorem intercalate_prefixes (sep : String) :
    String.intercalate sep prefixes =
      "Webkit" ++ sep ++ "Moz" ++ sep ++ "O" ++ sep ++ "ms" := rfl

/-- For a space-free property name the candidate list is exactly: the
unprefixed name, then each vendor prefix applied to the capitalized name, in
the order Webkit, Moz, O, ms. -/
theorem pfxCandidates_eq (p : String) (hp : ' ' ∉ p.data)
    (hc : ' ' ∉ (capitalize p).data) :
    pfxCandidates p =
      [p, "Webkit" ++ capitalize p, "Moz" ++ capitalize p,
       "O" ++ capitalize p, "ms" ++ capitalize p] := by
  have hseg : ∀ pre : String, ' ' ∉ pre.data → ' ' ∉ (pre ++ capitalize p).data := by
    intro pre hpre hmem
    rw [strData_append] at hmem
    rcases List.mem_append.mp hmem with h | h
    exacts [hpre h, hc h]
  have h1 : propsStr p =
      p ++ " " ++ (("Webkit" ++ capitalize p) ++ " " ++
        (("Moz" ++ capitalize p) ++ " " ++
          (("O" ++ capitalize p) ++ " " ++ ("ms" ++ capitalize p)))) := by
    unfold propsStr
    rw [intercalate_prefixes]
    simp only [strAppend_assoc]
  unfold pfxCandidates
  rw [h1, jsSplitSpace_sep _ _ hp,
    jsSplitSpace_sep _ _ (hseg "Webkit" (by decide)),
    jsSplitSpace_sep _ _ (hseg "Moz" (by decide)),
    jsSplitSpace_sep _ _ (hseg "O" (by decide)),
    jsSplitSpace_nospace _ (hseg "ms" (by decide))]

/-! ## Lemmas about the aggregator and the probes -/

/-- Every invocation of `testAll` raises `TypeError` at its first loop
iteration: the guard `this["css3Dtransform"]` is a (truthy) function, and the
body then calls `test()` where `test` holds the string `"css3Dtransform"`. -/
theorem testAll_error (className : String) :
    testAll className = Except.error JSError.typeError := rfl

theorem runTestAll_id (className : String) : runTestAll className = className := by
  simp [runTestAll, testAll_error]

theorem det_css3Dtransform (s : FeatureState) (env : Env) :
    (css3Dtransform ((css3Dtransform s env).2) env).1 = (css3Dtransform s env).1 := by
  cases hOld : s.old
  · simp [css3Dtransform, hOld, pfx_stable]
  · simp [css3Dtransform, hOld]

theorem det_cssTransform (s : FeatureState) (env : Env) :
    (cssTransform ((cssTransform s env).2) env).1 = (cssTransform s env).1 := by
  cases hOld : s.old
  · simp [cssTransform, hOld, pfx_stable]
  · simp [cssTransform, hOld]

theorem det_cssTransition (s : FeatureState) (env : Env) :
    (cssTransition ((cssTransition s env).2) env).1 = (cssTransition s env).1 := by
  simp [cssTransition, pfx_stable]

/-! ## Claim theorems -/

/-- C1: `testAll` is claimed to append a lowercase class token for each truthy
probe, prefixed by a single `"js"` token.  The code instead raises a
`TypeError` on the first loop iteration (`test()` invokes the loop key, a
string) and never reaches the statement that mutates `docEl.className`: for
every initial class attribute, in every environment, the call errors and the
attribute is left unchanged, so no `"js"`, `"canvas"` or `"svg"` token is ever
appended. -/
theorem testAll_throws_never_appends (className : String) :
    testAll className = Except.error JSError.typeError ∧
    runTestAll className = className :=
  ⟨testAll_error className, runTestAll_id className⟩

/-- C2: the public surface is claimed to be throw-free, yet every invocation
of the public operation `testAll` lets an exception (a `TypeError`) escape to
its caller. -/
theorem testAll_exception_escapes (className : String) :
    ∃ e : JSError, testAll className = Except.error e :=
  ⟨JSError.typeError, testAll_error className⟩

/-- C3 counterexample: for the property name `"constructor"` and a style
object recognizing nothing, the resolver performs no property-existence check
at all and does not return `null`: the memo object `{}` inherits
`constructor` from `Object.prototype`, so `typeof memory["constructor"]` is
`"function"`, never `"undefined"`, and the inherited function object — not a
candidate name and not `null` — is returned. -/
theorem pfx_inherited_key_counterexample :
    (pfx [] (Memory.mk []) "constructor").1 = MemVal.protoFn "constructor" ∧
    (pfx [] (Memory.mk []) "constructor").1 ≠ MemVal.null ∧
    (pfx [] (Memory.mk []) "constructor").2.2 = 0 := by
  decide

/-- C3 (amended): for every property name that contains no space character
and whose initial memo read is undefined (in particular, any name that is not
an `Object.prototype` member name such as `constructor`, `toString`,
`hasOwnProperty`, …), `util.pfx` checks the unprefixed name first, then the
prefixes Webkit, Moz, O, ms applied to the capitalized name, in that fixed
order; it returns the first candidate the style object recognizes and `null`
when none is recognized; when the unprefixed name is supported it is
returned even if a prefixed variant is also supported. -/
theorem pfx_resolution_order (style : List String) (m : Memory) (p : String)
    (hmem : m.lookup p = none) (hp : ' ' ∉ p.data)
    (hc : ' ' ∉ (capitalize p).data) :
    pfxCandidates p =
      [p, "Webkit" ++ capitalize p, "Moz" ++ capitalize p,
       "O" ++ capitalize p, "ms" ++ capitalize p] ∧
    (pfx style m p).1 =
      (match (pfxCandidates p).find? (fun c => styleDefined style c) with
        | some c => MemVal.str c
        | none => MemVal.null) ∧
    (styleDefined style p = true → (pfx style m p).1 = MemVal.str p) := by
  have hb : (pfx style m p).1 =
      (match (pfxCandidates p).find? (fun c => styleDefined style c) with
        | some c => MemVal.str c
        | none => MemVal.null) := by
    simp [pfx, hmem, scanProps_fst]
  refine ⟨pfxCandidates_eq p hp hc, hb, fun hs => ?_⟩
  rw [hb, pfxCandidates_eq p hp hc]
  simp [List.find?, hs]

/-- C3 witness: with a style object recognizing both `transform` and
`WebkitTransform`, resolving `"transform"` from a fresh memo returns the
unprefixed name (tie-break: unprefixed wins). -/
theorem pfx_resolution_order_witness :
    (pfx ["transform", "WebkitTransform"] (Memory.mk []) "transform").1 =
      MemVal.str "transform" :=
  (pfx_resolution_order ["transform", "WebkitTransform"] (Memory.mk [])
    "transform" (by decide) (by decide) (by decide)).2.2 (by decide)

/-- C4: after a first call `util.pfx(p)`, a subsequent call with the same
property name returns the identical result, leaves the memo table unchanged,
and performs zero further property-existence checks against the style object
(no re-scan of the candidate list). -/
theorem pfx_memoized (style : List String) (m : Memory) (p : String) :
    (pfx style ((pfx style m p).2.1) p).1 = (pfx style m p).1 ∧
    (pfx style ((pfx style m p).2.1) p).2.1 = (pfx style m p).2.1 ∧
    (pfx style ((pfx style m p).2.1) p).2.2 = 0 := by
  rw [pfx_stable]
  exact ⟨rfl, rfl, rfl⟩

/-- C5: each of the four guarded probes (`localStorage`, `viewportUnit`,
`remUnit`, `webGL`) returns `false` when its underlying operation throws; the
exception is caught inside the probe and never propagates. -/
theorem probes_swallow_exceptions (env : Env) :
    (env.localStorageObj = Except.error () → localStorage env = false) ∧
    (env.setWidth "1vw" = Except.error () → viewportUnit env = false) ∧
    (env.setWidth "1rem" = Except.error () → remUnit env = false) ∧
    (env.getContext3D "webgl" = Except.error () → webGL env = false) := by
  refine ⟨fun h => ?_, fun h => ?_, fun h => ?_, fun h => ?_⟩ <;>
    simp [localStorage, viewportUnit, remUnit, webGL, h]

/-- C5 witness: in an environment where storage access, width assignment and
context acquisition all throw, the four probes all return `false`. -/
theorem probes_swallow_exceptions_witness :
    localStorage throwingEnv = false ∧ viewportUnit throwingEnv = false ∧
    remUnit throwingEnv = false ∧ webGL throwingEnv = false :=
  ⟨(probes_swallow_exceptions throwingEnv).1 rfl,
   (probes_swallow_exceptions throwingEnv).2.1 rfl,
   (probes_swallow_exceptions throwingEnv).2.2.1 rfl,
   (probes_swallow_exceptions throwingEnv).2.2.2 rfl⟩

/-- C6: when the user-agent matches the old-device denylist signature, the
`css3Dtransform` and `cssTransform` probes report `false` no matter how
prefix resolution would turn out, while `cssTransition` carries no denylist
gate: its result is exactly the `transition` prefix-resolution test,
whatever the `old` flag is. -/
theorem denylist_gate (ua : String) (env : Env) (m : Memory)
    (h : uaOld ua = true) :
    (css3Dtransform ⟨uaOld ua, m⟩ env).1 = false ∧
    (cssTransform ⟨uaOld ua, m⟩ env).1 = false ∧
    (∀ b : Bool,
      (cssTransition ⟨b, m⟩ env).1 =
        (pfx env.styleProps m "transition").1.isNotNull) := by
  rw [h]
  exact ⟨rfl, rfl, fun b => rfl⟩

/-- C6 witness: a real old-Android user agent matches the denylist; in an
environment whose style object recognizes `perspective` (so prefix
resolution succeeds), `css3Dtransform` still returns `false`. -/
theorem denylist_gate_witness :
    (pfx oldAndroidEnv.styleProps (Memory.mk []) "perspective").1.isNotNull = true ∧
    uaOld oldAndroidEnv.userAgent = true ∧
    (css3Dtransform ⟨uaOld oldAndroidEnv.userAgent, Memory.mk []⟩ oldAndroidEnv).1 = false :=
  ⟨by decide, by decide,
    (denylist_gate oldAndroidEnv.userAgent oldAndroidEnv (Memory.mk [])
      (by decide)).1⟩

/-- C7: `webGL()` returns `false` whenever `window.WebGLRenderingContext` is
absent, and returns `true` only when that constructor exists and a `webgl` or
`experimental-webgl` context is actually acquired. -/
theorem webGL_requires_context (env : Env) :
    (env.hasWebGLRenderingContext = false → webGL env = false) ∧
    (webGL env = true →
      env.hasWebGLRenderingContext = true ∧
      (env.getContext3D "webgl" = Except.ok true ∨
        (env.getContext3D "webgl" = Except.ok false ∧
          env.getContext3D "experimental-webgl" = Except.ok true))) := by
  constructor
  · intro h
    simp [webGL, h]
  · intro h
    unfold webGL at h
    cases hw : env.hasWebGLRenderingContext with
    | false => rw [hw] at h; simp at h
    | true =>
      refine ⟨rfl, ?_⟩
      rw [hw] at h
      simp only [if_true] at h
      cases hg : env.getContext3D "webgl" with
      | error e => rw [hg] at h; simp at h
      | ok b =>
        rw [hg] at h
        cases b with
        | true => exact Or.inl rfl
        | false =>
          cases hg2 : env.getContext3D "experimental-webgl" with
          | error e => rw [hg2] at h; simp at h
          | ok b2 =>
            rw [hg2] at h
            simp at h
            subst h
            exact Or.inr ⟨rfl, rfl⟩

/-- C7 witness: with no WebGL context constructor present, `webGL()` returns
`false`. -/
theorem webGL_requires_context_witness : webGL noWebGLEnv = false :=
  (webGL_requires_context noWebGLEnv).1 rfl

/-- C8: across two sequential invocations of `testAll`, the second invocation
adds no further `"js"` token to the root element's class attribute.  This
holds in the strongest possible form in the code as written: every `testAll`
call raises a `TypeError` before the class-attribute mutation is reached, so
neither invocation appends any token at all and the attribute is unchanged. -/
theorem js_token_not_duplicated (className : String) :
    jsTokenCount (runTestAll (runTestAll className)) =
      jsTokenCount (runTestAll className) := by
  simp [runTestAll_id]

/-- C9: every probe in the catalog returns the same result on two immediately
successive calls in an unchanged environment — including the three probes
that consult the prefix memo table, whose first call may populate it. -/
theorem probes_deterministic (np : String × Probe) (h : np ∈ catalog)
    (s : FeatureState) (env : Env) :
    (np.2 ((np.2 s env).2) env).1 = (np.2 s env).1 := by
  fin_cases h
  · exact det_css3Dtransform s env
  · exact det_cssTransform s env
  · exact det_cssTransition s env
  all_goals rfl

/-- C9 witness: two successive `css3Dtransform` calls from a fresh module
state agree in a concrete environment. -/
theorem probes_deterministic_witness :
    (css3Dtransform ((css3Dtransform ⟨false, Memory.mk []⟩ baseEnv).2) baseEnv).1 =
      (css3Dtransform ⟨false, Memory.mk []⟩ baseEnv).1 :=
  probes_deterministic ("css3Dtransform", css3Dtransform) (List.Mem.head _)
    ⟨false, Memory.mk []⟩ baseEnv

/-- C10: the denylist flag is computed exactly once, at module
initialization, from `navigator.userAgent`; a later change of the live
user-agent value leaves `css3Dtransform` and `cssTransform` unchanged, and
their results are determined by the initialization-time flag together with
the style object alone. -/
theorem old_flag_frozen (ua ua2 : String) (env : Env) (s : FeatureState) :
    (moduleInit ua).old = uaOld ua ∧
    css3Dtransform s { env with userAgent := ua2 } = css3Dtransform s env ∧
    cssTransform s { env with userAgent := ua2 } = cssTransform s env ∧
    (css3Dtransform (moduleInit ua) env).1 =
      (!uaOld ua && (pfx env.styleProps (Memory.mk []) "perspective").1.isNotNull) ∧
    (cssTransform (moduleInit ua) env).1 =
      (!uaOld ua && (pfx env.styleProps (Memory.mk []) "transformOrigin").1.isNotNull) := by
  refine ⟨rfl, rfl, rfl, ?_, ?_⟩ <;>
  · cases h : uaOld ua <;> simp [css3Dtransform, cssTransform, moduleInit, h]

end FeatureJS
